import Mathlib

/-
Shallow embedding of `src/spotify_tui.py` (aaravmaloo/spotify_cli).

The program is a Textual TUI around the spotipy client.  The embedding
models:
  * the mutable state of the `SpotifyTUI` instance (`TUIState`);
  * the worker function `search_spotify` and the applied part of the
    debounced task `delayed_search`;
  * the input handler `on_input_changed` (cancellation of the pending
    search task and scheduling of a new one);
  * the playback pipeline `handle_playback` with the remote spotipy API
    given as an oracle of per-call responses (`PlaybackOracle`);
  * the key handler `on_key` (navigation, Enter / select-track, playback
    dispatch);
  * a single-threaded event-loop scheduler (`SchedState`, `stepEvent`,
    `run`) reflecting asyncio semantics: handlers and task continuations
    run atomically on the loop, and a task cancelled via `Task.cancel`
    never resumes past its next suspension point.

Remote calls that can raise are modelled as `RResult` values supplied by
the environment; Python string truthiness is `= ""` / `= []` tests, and
`str.strip()` is `pyStrip`.
-/

/-- A track record as used by the code: `item['name']`,
`item['artists'][0]['name']` (modelled as the single field `artist`),
`item['uri']`. -/
structure Track where
  name : String
  artist : String
  uri : String
deriving DecidableEq

/-- The part of a `sp.current_playback()` response the code reads:
`is_playing` and the optional `item` (current track). -/
structure PlaybackInfo where
  is_playing : Bool
  item : Option Track
deriving DecidableEq

/-- A `spotipy.exceptions.SpotifyException`: the code branches on
`e.http_status == 404` and renders `str(e)` (modelled as `msg`). -/
structure SpotifyException where
  http_status : Nat
  msg : String
deriving DecidableEq

/-- Outcome of one remote spotipy call: normal return or a raised
`SpotifyException`. -/
inductive RResult (α : Type) where
  | ok (val : α)
  | err (e : SpotifyException)
deriving DecidableEq

/-- Python `str.strip()`: drop whitespace from both ends. -/
def pyStrip (s : String) : String :=
  ⟨((s.data.dropWhile Char.isWhitespace).reverse.dropWhile Char.isWhitespace).reverse⟩

/-- The mutable fields of the `SpotifyTUI` instance touched by the
modelled handlers, together with the two text widgets they render into
(`#results` and `#now-playing`). -/
structure TUIState where
  query : String
  track_uri : Option String
  selected_index : Int
  results : List Track
  is_playing : Bool
  status : String
  results_display : String
deriving DecidableEq

/-- The remote commands the code can issue in one handler invocation. -/
inductive RemoteCall where
  | getPlayback
  | pauseCmd
  | playCmd
  | playUris (uris : List String)
  | nextTrack
  | prevTrack
deriving DecidableEq

/-- Per-call responses of the remote API for one `handle_playback`
invocation (`sp.current_playback`, `sp.pause_playback`,
`sp.start_playback`, `sp.next_track`/`sp.previous_track`, and the
follow-up `sp.current_playback` after a skip). -/
structure PlaybackOracle where
  currentPlayback : RResult (Option PlaybackInfo)
  pauseResp : RResult Unit
  playResp : RResult Unit
  skipResp : RResult Unit
  refetchPlayback : RResult (Option PlaybackInfo)
deriving DecidableEq

/-- `playback and playback.get('is_playing', False)` coerced to bool. -/
def currentIsPlaying : Option PlaybackInfo → Bool
  | none => false
  | some pb => pb.is_playing

/-- `playback and playback.get('item')`. -/
def itemOf : Option PlaybackInfo → Option Track
  | none => none
  | some pb => pb.item

/-- The status text written by the `except SpotifyException` handler of
`handle_playback` (lines 197-201): dedicated message on HTTP 404
(no active device), otherwise a generic message carrying `str(e)`. -/
def playbackErrStatus (e : SpotifyException) : String :=
  if e.http_status = 404 then "Error: No active Spotify device found"
  else "Playback Error: " ++ e.msg

/-- `SpotifyTUI.handle_playback` (lines 170-201).  Returns the updated
state and the list of remote calls issued, in order.  The pre-fetch
`sp.current_playback()` is always issued first; every raised
`SpotifyException` is caught by the handler and rendered via
`playbackErrStatus` into the `#now-playing` label. -/
def handle_playback (action : String) (o : PlaybackOracle) (s : TUIState) :
    TUIState × List RemoteCall :=
  match o.currentPlayback with
  | .err e => ({ s with status := playbackErrStatus e }, [.getPlayback])
  | .ok playback =>
    let current_state := currentIsPlaying playback
    if action = "play_pause" then
      if current_state then
        match o.pauseResp with
        | .err e => ({ s with status := playbackErrStatus e }, [.getPlayback, .pauseCmd])
        | .ok _ =>
          ({ s with is_playing := false, status := "Paused" }, [.getPlayback, .pauseCmd])
      else
        match o.playResp with
        | .err e => ({ s with status := playbackErrStatus e }, [.getPlayback, .playCmd])
        | .ok _ =>
          match itemOf playback with
          | some t =>
            ({ s with is_playing := true, status := "Playing: " ++ t.name },
             [.getPlayback, .playCmd])
          | none => ({ s with is_playing := true }, [.getPlayback, .playCmd])
    else if action = "next" ∨ action = "previous" then
      let skipCall := if action = "next" then RemoteCall.nextTrack else RemoteCall.prevTrack
      match o.skipResp with
      | .err e => ({ s with status := playbackErrStatus e }, [.getPlayback, skipCall])
      | .ok _ =>
        match o.refetchPlayback with
        | .err e =>
          ({ s with is_playing := true, status := playbackErrStatus e },
           [.getPlayback, skipCall, .getPlayback])
        | .ok np =>
          match itemOf np with
          | some t =>
            ({ s with is_playing := true, status := "Playing: " ++ t.name },
             [.getPlayback, skipCall, .getPlayback])
          | none =>
            ({ s with is_playing := true }, [.getPlayback, skipCall, .getPlayback])
    else (s, [.getPlayback])

/-- `SpotifyTUI.search_spotify` (lines 125-133): the worker function run
on the executor thread.  Blank (stripped) query short-circuits to `[]`
before any remote call; `except Exception` maps any remote failure to
`[]`; otherwise the result items are returned. -/
def search_spotify (query : String) (remote : RResult (List Track)) : List Track :=
  if pyStrip query = "" then []
  else
    match remote with
    | .ok items => items
    | .err _ => []

/-- One rendered row of the `#results` widget:
`f"{marker} {item['name']} by {item['artists'][0]['name']}"`. -/
def renderLine (selected : Int) (i : Nat) (t : Track) : String :=
  (if (i : Int) = selected then ">" else " ") ++ " " ++ t.name ++ " by " ++ t.artist

/-- The full `#results` text produced by the rendering expression shared
by `delayed_search` and the navigation branches of `on_key`. -/
def renderResults (results : List Track) (selected : Int) : String :=
  String.intercalate "\n" (results.enum.map (fun p => renderLine selected p.1 p.2))

/-- The state mutation performed by `SpotifyTUI.delayed_search`
(lines 135-152) once it resumes after the 200 ms debounce sleep and the
executor call, i.e. the part that runs only if the task was not
cancelled: store the results, reset the selection to 0 when they are
non-empty, and render either the rows, "No results", or the
placeholder. -/
def delayed_search_apply (query : String) (remote : RResult (List Track))
    (s : TUIState) : TUIState :=
  let results := search_spotify query remote
  if results = [] then
    { s with results := results,
             results_display := if query = "" then "Type to search..." else "No results" }
  else
    { s with results := results, selected_index := 0,
             results_display := renderResults results 0 }

/-- Python sequence indexing `xs[i]` for an `int` index: non-negative
indices from the front, negative indices from the back, `none` when the
access would raise `IndexError`. -/
def pyGet (xs : List Track) (i : Int) : Option Track :=
  if 0 ≤ i then xs[i.toNat]?
  else if 0 ≤ i + xs.length then xs[(i + xs.length).toNat]?
  else none

/-- Navigation update shared by the up/down branches of `on_key`: set
the selection and re-render the rows with the new marker. -/
def navRender (s : TUIState) (i : Int) : TUIState :=
  { s with selected_index := i, results_display := renderResults s.results i }

/-- `SpotifyTUI.on_key` (lines 223-260).  `hasFocus` is
`input_widget.has_focus`.  When the input is not focused, space/n/p
dispatch `handle_playback` (via `asyncio.create_task`; modelled here as
the task's whole effect, which touches neither `results`,
`selected_index` nor `query`).  When the input is focused and `results`
is non-empty, down/up clamp the selection and Enter plays
`results[selected_index]` — the indexing itself sits outside the `try`,
so an out-of-range access would be an uncaught `IndexError`, modelled as
`none`. -/
def on_key (key : String) (hasFocus : Bool) (po : PlaybackOracle)
    (enterResp : RResult Unit) (s : TUIState) :
    Option (TUIState × List RemoteCall) :=
  if hasFocus = false then
    if key = "space" then some (handle_playback "play_pause" po s)
    else if key = "n" then some (handle_playback "next" po s)
    else if key = "p" then some (handle_playback "previous" po s)
    else some (s, [])
  else if s.results = [] then some (s, [])
  else if key = "down" then
    some (navRender s (min (s.selected_index + 1) ((s.results.length : Int) - 1)), [])
  else if key = "up" then
    some (navRender s (max (s.selected_index - 1) 0), [])
  else if key = "enter" then
    match pyGet s.results s.selected_index with
    | none => none
    | some track =>
      let s1 := { s with track_uri := some track.uri }
      match enterResp with
      | .ok _ =>
        some ({ s1 with status := "Playing: " ++ track.name }, [.playUris [track.uri]])
      | .err _ => some ({ s1 with status := "Playback Error" }, [.playUris [track.uri]])
  else some (s, [])

/-- `SpotifyTUI.on_mount` (lines 108-123): initial field values plus the
best-effort startup read of `sp.current_playback()`; any exception there
is swallowed (`is_playing = False`, label left at "Not Playing"). -/
def on_mount (initResp : RResult (Option PlaybackInfo)) : TUIState :=
  let base : TUIState :=
    { query := "", track_uri := none, selected_index := 0, results := [],
      is_playing := false, status := "Not Playing",
      results_display := "Type to search..." }
  match initResp with
  | .err _ => base
  | .ok pb =>
    let s := { base with is_playing := currentIsPlaying pb }
    match itemOf pb with
    | some t => { s with status := "Playing: " ++ t.name }
    | none => s

/-- One debounced search task as created by `asyncio.create_task
(self.delayed_search(self.query))`: the query it captured, whether
`Task.cancel()` has been requested, and whether it has finished. -/
structure SearchTask where
  query : String
  cancelled : Bool
  done : Bool
deriving DecidableEq

/-- The event-loop level state: the TUI state, all search tasks ever
created (task id = creation index), the `self.search_task` slot, a log
of the results applications that actually happened (task id and the
query whose results were written), and whether an uncaught exception
escaped a handler. -/
structure SchedState where
  ui : TUIState
  tasks : List SearchTask
  search_task : Option Nat
  appliedLog : List (Nat × String)
  crashed : Bool
deriving DecidableEq

/-- Lines 157-159 of `on_input_changed`:
`if self.search_task and not self.search_task.done(): cancel()`. -/
def cancelPending (st : SchedState) : List SearchTask :=
  match st.search_task with
  | none => st.tasks
  | some id =>
    match st.tasks[id]? with
    | none => st.tasks
    | some t => if t.done then st.tasks else st.tasks.set id { t with cancelled := true }

/-- `SpotifyTUI.on_input_changed` (lines 154-168): strip the new text
into `self.query`, cancel the pending task, and either clear the results
(empty query, no task scheduled) or create a new `delayed_search` task
for the stripped query. -/
def stepInput (value : String) (st : SchedState) : SchedState :=
  let q := pyStrip value
  let tasks1 := cancelPending st
  if q = "" then
    { st with
      ui := { st.ui with query := q, results := [],
                         results_display := "Type to search..." },
      tasks := tasks1 }
  else
    { st with
      ui := { st.ui with query := q },
      tasks := tasks1 ++ [⟨q, false, false⟩],
      search_task := some tasks1.length }

/-- Completion of search task `id` with remote outcome `remote`.  Under
asyncio, `Task.cancel()` makes the task resume with `CancelledError`
instead of the awaited value, so a cancelled task finishes without
running lines 143-152; only a live task applies
`delayed_search_apply`. -/
def stepTaskComplete (id : Nat) (remote : RResult (List Track))
    (st : SchedState) : SchedState :=
  match st.tasks[id]? with
  | none => st
  | some t =>
    if t.done then st
    else if t.cancelled then { st with tasks := st.tasks.set id { t with done := true } }
    else
      { st with
        ui := delayed_search_apply t.query remote st.ui,
        tasks := st.tasks.set id { t with done := true },
        appliedLog := st.appliedLog ++ [(id, t.query)] }

/-- A key event processed on the loop; an uncaught exception from the
handler (the only candidate being the Enter indexing) crashes. -/
def stepKey (key : String) (hasFocus : Bool) (po : PlaybackOracle)
    (enterResp : RResult Unit) (st : SchedState) : SchedState :=
  match on_key key hasFocus po enterResp st.ui with
  | none => { st with crashed := true }
  | some (ui, _) => { st with ui := ui }

/-- The externally visible events driving the loop. -/
inductive Event where
  | inputChanged (value : String)
  | taskComplete (id : Nat) (remote : RResult (List Track))
  | keyEvent (key : String) (hasFocus : Bool) (po : PlaybackOracle)
      (enterResp : RResult Unit)
deriving DecidableEq

/-- One atomic event-loop step. -/
def stepEvent (st : SchedState) (e : Event) : SchedState :=
  match e with
  | .inputChanged v => stepInput v st
  | .taskComplete id r => stepTaskComplete id r st
  | .keyEvent k f po er => stepKey k f po er st

/-- State right after `on_mount`. -/
def initState (initResp : RResult (Option PlaybackInfo)) : SchedState :=
  { ui := on_mount initResp, tasks := [], search_task := none,
    appliedLog := [], crashed := false }

/-- Run the app from `on_mount` through a sequence of loop events. -/
def run (initResp : RResult (Option PlaybackInfo)) (es : List Event) : SchedState :=
  es.foldl stepEvent (initState initResp)

/-- Selection safety: whenever results are displayed, the selection is a
valid index. -/
def SelInv (ui : TUIState) : Prop :=
  ui.results ≠ [] → 0 ≤ ui.selected_index ∧ ui.selected_index < ui.results.length

/-- Every live (neither cancelled nor done) search task is the one in
the `self.search_task` slot, and its captured query is the current
(stripped, non-empty) `self.query`. -/
def LiveInv (st : SchedState) : Prop :=
  ∀ i t, st.tasks[i]? = some t → t.cancelled = false → t.done = false →
    st.search_task = some i ∧ t.query = st.ui.query ∧ t.query ≠ ""

/-- Every logged application belongs to a finished task. -/
def LogInv (st : SchedState) : Prop :=
  ∀ p ∈ st.appliedLog, ∃ t, st.tasks[p.1]? = some t ∧ t.done = true

/-- The global reachable-state invariant. -/
def ReachInv (st : SchedState) : Prop :=
  SelInv st.ui ∧ LiveInv st ∧ LogInv st ∧
  st.appliedLog.Pairwise (fun a b => a.1 ≠ b.1) ∧ st.crashed = false

/-- Where a remote spotipy call executes: directly on the asyncio event
loop thread, or on the `ThreadPoolExecutor` worker via
`loop.run_in_executor`. -/
inductive ExecContext where
  | eventLoop
  | workerThread
deriving DecidableEq

/-- One textual occurrence of a remote spotipy call in
`src/spotify_tui.py`. -/
structure RemoteCallSite where
  line : Nat
  caller : String
  api : String
  context : ExecContext
deriving DecidableEq

/-- Static table of every remote spotipy call in `src/spotify_tui.py`
and where it executes.  Only `search_spotify` (invoked solely through
`loop.run_in_executor` at lines 139-142) and the fetch inside
`update_track_name` (wrapped in `run_in_executor` at lines 207-209) run
on the worker thread; `on_mount`, all of `handle_playback`, and the
Enter branch of `on_key` call the client directly inside loop-resident
code. -/
def remoteCallSites : List RemoteCallSite := [
  ⟨118, "on_mount", "current_playback", .eventLoop⟩,
  ⟨130, "search_spotify", "search", .workerThread⟩,
  ⟨176, "handle_playback", "current_playback", .eventLoop⟩,
  ⟨181, "handle_playback", "pause_playback", .eventLoop⟩,
  ⟨185, "handle_playback", "start_playback", .eventLoop⟩,
  ⟨190, "handle_playback", "next_track/previous_track", .eventLoop⟩,
  ⟨193, "handle_playback", "current_playback", .eventLoop⟩,
  ⟨207, "update_track_name", "current_playback", .workerThread⟩,
  ⟨255, "on_key", "start_playback", .eventLoop⟩]

/-! ### Helper lemmas about the individual handlers -/

theorem getElem?_some_lt {α : Type} {l : List α} {n : Nat} {a : α}
    (h : l[n]? = some a) : n < l.length := by
  by_contra hn
  rw [List.getElem?_eq_none (by omega)] at h
  exact Option.noConfusion h

theorem handle_playback_fields (a : String) (o : PlaybackOracle) (s : TUIState) :
    (handle_playback a o s).1.results = s.results ∧
    (handle_playback a o s).1.selected_index = s.selected_index ∧
    (handle_playback a o s).1.query = s.query := by
  unfold handle_playback
  dsimp only
  repeat' split
  all_goals exact ⟨rfl, rfl, rfl⟩

theorem delayed_search_apply_fields (q : String) (r : RResult (List Track))
    (s : TUIState) :
    (delayed_search_apply q r s).query = s.query ∧
    (delayed_search_apply q r s).track_uri = s.track_uri ∧
    (delayed_search_apply q r s).results = search_spotify q r := by
  unfold delayed_search_apply
  dsimp only
  split
  next h => exact ⟨rfl, rfl, rfl⟩
  next h => exact ⟨rfl, rfl, rfl⟩

theorem delayed_search_apply_selinv (q : String) (r : RResult (List Track))
    (s : TUIState) : SelInv (delayed_search_apply q r s) := by
  unfold delayed_search_apply SelInv
  dsimp only
  split
  next h => intro hne; exact absurd h hne
  next h =>
    intro _
    dsimp only
    refine ⟨le_refl 0, ?_⟩
    exact_mod_cast List.length_pos.mpr h

theorem pyGet_eq_some (xs : List Track) (i : Int) (h0 : 0 ≤ i)
    (hl : i < xs.length) : ∃ t, pyGet xs i = some t := by
  unfold pyGet
  rw [if_pos h0]
  have hlt : i.toNat < xs.length := by omega
  rw [List.getElem?_eq_getElem hlt]
  exact ⟨_, rfl⟩

theorem selinv_transfer {a b : TUIState} (hr : a.results = b.results)
    (hi : a.selected_index = b.selected_index) (h : SelInv b) : SelInv a := by
  unfold SelInv at *
  rw [hr, hi]
  exact h

theorem navRender_fields (s : TUIState) (i : Int) :
    (navRender s i).results = s.results ∧ (navRender s i).query = s.query ∧
    (navRender s i).selected_index = i :=
  ⟨rfl, rfl, rfl⟩

theorem on_key_characterize (k : String) (f : Bool) (po : PlaybackOracle)
    (er : RResult Unit) (s : TUIState) (hSel : SelInv s) :
    ∃ ui calls, on_key k f po er s = some (ui, calls) ∧
      ui.results = s.results ∧ ui.query = s.query ∧ SelInv ui := by
  have hfields := fun a => handle_playback_fields a po s
  unfold on_key
  split_ifs with hf hk1 hk2 hk3 hres hd hu he
  · exact ⟨_, _, rfl, (hfields _).1, (hfields _).2.2,
      selinv_transfer (hfields _).1 (hfields _).2.1 hSel⟩
  · exact ⟨_, _, rfl, (hfields _).1, (hfields _).2.2,
      selinv_transfer (hfields _).1 (hfields _).2.1 hSel⟩
  · exact ⟨_, _, rfl, (hfields _).1, (hfields _).2.2,
      selinv_transfer (hfields _).1 (hfields _).2.1 hSel⟩
  · exact ⟨s, [], rfl, rfl, rfl, hSel⟩
  · exact ⟨s, [], rfl, rfl, rfl, hSel⟩
  · obtain ⟨h0, hl⟩ := hSel hres
    have hlen : 0 < s.results.length := List.length_pos.mpr hres
    refine ⟨_, _, rfl, rfl, rfl, ?_⟩
    intro _
    dsimp only [navRender]
    omega
  · obtain ⟨h0, hl⟩ := hSel hres
    have hlen : 0 < s.results.length := List.length_pos.mpr hres
    refine ⟨_, _, rfl, rfl, rfl, ?_⟩
    intro _
    dsimp only [navRender]
    omega
  · obtain ⟨h0, hl⟩ := hSel hres
    obtain ⟨t, hpg⟩ := pyGet_eq_some s.results s.selected_index h0 hl
    rw [hpg]
    dsimp only
    cases er with
    | ok u => exact ⟨_, _, rfl, rfl, rfl, selinv_transfer rfl rfl hSel⟩
    | err e => exact ⟨_, _, rfl, rfl, rfl, selinv_transfer rfl rfl hSel⟩
  · exact ⟨s, [], rfl, rfl, rfl, hSel⟩

theorem cancelPending_length (st : SchedState) :
    (cancelPending st).length = st.tasks.length := by
  unfold cancelPending
  repeat' split
  all_goals simp

theorem cancelPending_no_live (st : SchedState) (hL : LiveInv st) :
    ∀ (i : Nat) (t : SearchTask), (cancelPending st)[i]? = some t →
      t.cancelled = false → t.done = false → False := by
  intro i t hget hc hd
  unfold cancelPending at hget
  split at hget
  next hslot =>
    obtain ⟨hs, _, _⟩ := hL i t hget hc hd
    rw [hslot] at hs
    exact Option.noConfusion hs
  next id hslot =>
    split at hget
    next hid =>
      obtain ⟨hs, _, _⟩ := hL i t hget hc hd
      rw [hslot] at hs
      have hii : id = i := by injection hs
      subst hii
      rw [hid] at hget
      exact Option.noConfusion hget
    next t0 hid =>
      split at hget
      next hdone =>
        obtain ⟨hs, _, _⟩ := hL i t hget hc hd
        rw [hslot] at hs
        have hii : id = i := by injection hs
        subst hii
        rw [hid] at hget
        have ht : t0 = t := by injection hget
        subst ht
        rw [hdone] at hd
        exact Bool.noConfusion hd
      next hdone =>
        by_cases hii : i = id
        · subst hii
          have hlt : i < st.tasks.length := getElem?_some_lt hid
          rw [List.getElem?_set_eq_of_lt _ hlt] at hget
          have ht : ({ t0 with cancelled := true } : SearchTask) = t := by injection hget
          subst ht
          exact Bool.noConfusion hc
        · rw [List.getElem?_set_ne (fun h2 => hii h2.symm)] at hget
          obtain ⟨hs, _, _⟩ := hL i t hget hc hd
          rw [hslot] at hs
          have hii2 : id = i := by injection hs
          exact hii hii2.symm

theorem cancelPending_done_query (st : SchedState) (i : Nat) :
    ((cancelPending st)[i]?).map (fun t => (t.done, t.query)) =
      (st.tasks[i]?).map (fun t => (t.done, t.query)) := by
  unfold cancelPending
  split
  · rfl
  next id hslot =>
    split
    · rfl
    next t0 hid =>
      split
      next hdone => rfl
      next hdone =>
        by_cases hii : i = id
        · subst hii
          have hlt : i < st.tasks.length := getElem?_some_lt hid
          rw [List.getElem?_set_eq_of_lt _ hlt, hid]
          rfl
        · rw [List.getElem?_set_ne (fun h2 => hii h2.symm)]

theorem on_mount_fields (i : RResult (Option PlaybackInfo)) :
    (on_mount i).results = [] ∧ (on_mount i).selected_index = 0 := by
  unfold on_mount
  dsimp only
  repeat' split
  all_goals exact ⟨rfl, rfl⟩

theorem stepInput_inv (v : String) (st : SchedState) (h : ReachInv st) :
    ReachInv (stepInput v st) := by
  obtain ⟨hSel, hLive, hLog, hPw, hCr⟩ := h
  unfold stepInput
  dsimp only
  split
  next hq =>
    refine ⟨?_, ?_, ?_, hPw, hCr⟩
    · intro hne
      exact absurd rfl hne
    · intro i t hget hc hd
      exact (cancelPending_no_live st hLive i t hget hc hd).elim
    · intro p hp
      obtain ⟨t, hgt, hdone⟩ := hLog p hp
      have hmap := cancelPending_done_query st p.1
      rw [hgt] at hmap
      cases hcp : (cancelPending st)[p.1]? with
      | none =>
        rw [hcp] at hmap
        exact Option.noConfusion hmap
      | some t2 =>
        rw [hcp] at hmap
        refine ⟨t2, rfl, ?_⟩
        simp only [Option.map] at hmap
        have hpair : (t2.done, t2.query) = (t.done, t.query) := by injection hmap
        have hd2 : t2.done = t.done := congrArg Prod.fst hpair
        rw [hd2, hdone]
  next hq =>
    refine ⟨?_, ?_, ?_, hPw, hCr⟩
    · intro hne
      exact hSel hne
    · intro i t hget hc hd
      by_cases hlt : i < (cancelPending st).length
      · rw [List.getElem?_append_left hlt] at hget
        exact absurd (cancelPending_no_live st hLive i t hget hc hd) not_false
      · by_cases heq : i = (cancelPending st).length
        · subst heq
          rw [List.getElem?_concat_length] at hget
          have ht : (⟨pyStrip v, false, false⟩ : SearchTask) = t := by injection hget
          rw [← ht]
          exact ⟨rfl, rfl, hq⟩
        · rw [List.getElem?_eq_none (by simp; omega)] at hget
          exact Option.noConfusion hget
    · intro p hp
      obtain ⟨t, hgt, hdone⟩ := hLog p hp
      have hmap := cancelPending_done_query st p.1
      rw [hgt] at hmap
      cases hcp : (cancelPending st)[p.1]? with
      | none =>
        rw [hcp] at hmap
        exact Option.noConfusion hmap
      | some t2 =>
        rw [hcp] at hmap
        have hlt : p.1 < (cancelPending st).length := getElem?_some_lt hcp
        refine ⟨t2, ?_, ?_⟩
        · rw [List.getElem?_append_left hlt]
          exact hcp
        · simp only [Option.map] at hmap
          have hpair : (t2.done, t2.query) = (t.done, t.query) := by injection hmap
          have hd2 : t2.done = t.done := congrArg Prod.fst hpair
          rw [hd2, hdone]

theorem stepTaskComplete_inv (id : Nat) (r : RResult (List Track)) (st : SchedState)
    (h : ReachInv st) : ReachInv (stepTaskComplete id r st) := by
  obtain ⟨hSel, hLive, hLog, hPw, hCr⟩ := h
  unfold stepTaskComplete
  split
  · exact ⟨hSel, hLive, hLog, hPw, hCr⟩
  next t hid =>
    have hlt : id < st.tasks.length := getElem?_some_lt hid
    split
    next hdone => exact ⟨hSel, hLive, hLog, hPw, hCr⟩
    next hdone =>
      have hdone' : t.done = false := by simpa using hdone
      split
      next hcanc =>
        refine ⟨hSel, ?_, ?_, hPw, hCr⟩
        · intro i t2 hget hc hd
          by_cases hii : i = id
          · subst hii
            rw [List.getElem?_set_eq_of_lt _ hlt] at hget
            have ht2 : ({ t with done := true } : SearchTask) = t2 := by injection hget
            rw [← ht2] at hd
            exact Bool.noConfusion hd
          · rw [List.getElem?_set_ne (fun h2 => hii h2.symm)] at hget
            exact hLive i t2 hget hc hd
        · intro p hp
          obtain ⟨t2, hgt, hdone2⟩ := hLog p hp
          by_cases hii : p.1 = id
          · refine ⟨{ t with done := true }, ?_, rfl⟩
            rw [hii, List.getElem?_set_eq_of_lt _ hlt]
          · refine ⟨t2, ?_, hdone2⟩
            rw [List.getElem?_set_ne (fun h2 => hii h2.symm)]
            exact hgt
      next hcanc =>
        have hcanc' : t.cancelled = false := by simpa using hcanc
        obtain ⟨hslot, hquery, hqne⟩ := hLive id t hid hcanc' hdone'
        refine ⟨delayed_search_apply_selinv _ _ _, ?_, ?_, ?_, hCr⟩
        · intro i t2 hget hc hd
          by_cases hii : i = id
          · subst hii
            rw [List.getElem?_set_eq_of_lt _ hlt] at hget
            have ht2 : ({ t with done := true } : SearchTask) = t2 := by injection hget
            rw [← ht2] at hd
            exact Bool.noConfusion hd
          · rw [List.getElem?_set_ne (fun h2 => hii h2.symm)] at hget
            obtain ⟨hs2, _, _⟩ := hLive i t2 hget hc hd
            rw [hslot] at hs2
            have : id = i := by injection hs2
            exact absurd this.symm hii
        · intro p hp
          rw [List.mem_append] at hp
          cases hp with
          | inl hp =>
            obtain ⟨t2, hgt, hdone2⟩ := hLog p hp
            by_cases hii : p.1 = id
            · rw [hii, hid] at hgt
              have ht2 : t = t2 := by injection hgt
              rw [← ht2, hdone'] at hdone2
              exact Bool.noConfusion hdone2
            · refine ⟨t2, ?_, hdone2⟩
              rw [List.getElem?_set_ne (fun h2 => hii h2.symm)]
              exact hgt
          | inr hp =>
            rw [List.mem_singleton] at hp
            subst hp
            exact ⟨{ t with done := true },
              by rw [List.getElem?_set_eq_of_lt _ hlt], rfl⟩
        · rw [List.pairwise_append]
          refine ⟨hPw, List.pairwise_singleton _ _, ?_⟩
          intro a ha b hb
          rw [List.mem_singleton] at hb
          subst hb
          intro heq
          obtain ⟨t2, hgt, hdone2⟩ := hLog a ha
          rw [heq, hid] at hgt
          have ht2 : t = t2 := by injection hgt
          rw [← ht2, hdone'] at hdone2
          exact Bool.noConfusion hdone2

theorem stepKey_inv (k : String) (f : Bool) (po : PlaybackOracle) (er : RResult Unit)
    (st : SchedState) (h : ReachInv st) : ReachInv (stepKey k f po er st) := by
  obtain ⟨hSel, hLive, hLog, hPw, hCr⟩ := h
  obtain ⟨ui, calls, hok, hres, hquery, hSel2⟩ := on_key_characterize k f po er st.ui hSel
  unfold stepKey
  rw [hok]
  refine ⟨hSel2, ?_, hLog, hPw, hCr⟩
  intro i t hget hc hd
  obtain ⟨hs, hq, hne⟩ := hLive i t hget hc hd
  refine ⟨hs, ?_, hne⟩
  rw [hquery]
  exact hq

theorem stepEvent_inv (st : SchedState) (e : Event) (h : ReachInv st) :
    ReachInv (stepEvent st e) := by
  cases e with
  | inputChanged v => exact stepInput_inv v st h
  | taskComplete id r => exact stepTaskComplete_inv id r st h
  | keyEvent k f po er => exact stepKey_inv k f po er st h

theorem initState_inv (initResp : RResult (Option PlaybackInfo)) :
    ReachInv (initState initResp) := by
  unfold initState
  refine ⟨?_, ?_, ?_, List.Pairwise.nil, rfl⟩
  · intro hne
    exact absurd (on_mount_fields initResp).1 hne
  · intro i t hget
    have hget2 : ([] : List SearchTask)[i]? = some t := hget
    rw [List.getElem?_eq_none (Nat.zero_le i)] at hget2
    exact Option.noConfusion hget2
  · intro p hp
    exact absurd hp (List.not_mem_nil p)

theorem foldl_inv (P : SchedState → Prop)
    (hstep : ∀ st e, P st → P (stepEvent st e)) :
    ∀ (es : List Event) (st : SchedState), P st → P (es.foldl stepEvent st) := by
  intro es
  induction es with
  | nil => intro st h; exact h
  | cons e es ih => intro st h; exact ih (stepEvent st e) (hstep st e h)

theorem run_inv (initResp : RResult (Option PlaybackInfo)) (es : List Event) :
    ReachInv (run initResp es) :=
  foldl_inv ReachInv stepEvent_inv es (initState initResp) (initState_inv initResp)

/-! ### Concrete fixtures for closed instances -/

/-- A concrete track. -/
def trackA : Track := ⟨"Bohemian Rhapsody", "Queen", "spotify:track:aaa"⟩

/-- A concrete track. -/
def trackB : Track := ⟨"Radio Ga Ga", "Queen", "spotify:track:bbb"⟩

/-- A concrete track. -/
def trackC : Track := ⟨"Under Pressure", "Queen", "spotify:track:ccc"⟩

/-- A concrete idle UI state (the post-`on_mount` state with nothing
playing). -/
def idleUI : TUIState :=
  { query := "", track_uri := none, selected_index := 0, results := [],
    is_playing := false, status := "Not Playing",
    results_display := "Type to search..." }

/-- A concrete UI state with two results, selection at row 0. -/
def uiTwo : TUIState :=
  { query := "queen", track_uri := none, selected_index := 0,
    results := [trackA, trackB], is_playing := false,
    status := "Not Playing", results_display := "r" }

/-- An all-success playback oracle reporting no active playback. -/
def po0 : PlaybackOracle := ⟨.ok none, .ok (), .ok (), .ok (), .ok none⟩

/-! ### Claim theorems -/

/-- C7: every successful `play_pause` invocation issues exactly one
remote playback command — `pause_playback` when the pre-fetched state
says playing, else `start_playback`, never both in one invocation —
sets `is_playing` to the negation of the pre-fetched state, and on play
uses the pre-fetched item name for the display when present. -/
theorem play_pause_toggle_once :
    (∀ (s : TUIState) (o : PlaybackOracle) (pb : Option PlaybackInfo),
      o.currentPlayback = .ok pb → currentIsPlaying pb = true → o.pauseResp = .ok () →
        (handle_playback "play_pause" o s).2 = [.getPlayback, .pauseCmd] ∧
        (handle_playback "play_pause" o s).1.is_playing = false) ∧
    (∀ (s : TUIState) (o : PlaybackOracle) (pb : Option PlaybackInfo),
      o.currentPlayback = .ok pb → currentIsPlaying pb = false → o.playResp = .ok () →
        (handle_playback "play_pause" o s).2 = [.getPlayback, .playCmd] ∧
        (handle_playback "play_pause" o s).1.is_playing = true ∧
        (∀ t, itemOf pb = some t →
          (handle_playback "play_pause" o s).1.status = "Playing: " ++ t.name)) ∧
    (∀ (s : TUIState) (o : PlaybackOracle),
      (handle_playback "play_pause" o s).2.count RemoteCall.pauseCmd +
        (handle_playback "play_pause" o s).2.count RemoteCall.playCmd ≤ 1) := by
  refine ⟨?_, ?_, ?_⟩
  · intro s o pb h1 h2 h3
    unfold handle_playback
    rw [h1]
    dsimp only
    rw [if_pos rfl, if_pos h2, h3]
    exact ⟨rfl, rfl⟩
  · intro s o pb h1 h2 h3
    unfold handle_playback
    rw [h1]
    dsimp only
    rw [if_pos rfl, if_neg (by rw [h2]; exact Bool.noConfusion), h3]
    refine ⟨?_, ?_, ?_⟩
    · cases hit : itemOf pb <;> simp [hit]
    · cases hit : itemOf pb <;> simp [hit]
    · intro t hit
      rw [hit]
  · intro s o
    unfold handle_playback
    dsimp only
    repeat' split
    all_goals simp [List.count_cons, List.count_nil]

/-- C8: a query change whose stripped text is empty schedules no search
task (hence no remote search call), clears the ResultSet, leaves the
pending-task slot as is, and shows the neutral placeholder — and the
worker itself also short-circuits blank queries to the empty list. -/
theorem empty_query_no_search :
    ∀ (st : SchedState) (v : String), pyStrip v = "" →
      (stepInput v st).tasks.length = st.tasks.length ∧
      (stepInput v st).search_task = st.search_task ∧
      (stepInput v st).ui.results = [] ∧
      (stepInput v st).ui.results_display = "Type to search..." ∧
      (∀ r, search_spotify v r = []) := by
  intro st v hv
  unfold stepInput
  dsimp only
  rw [if_pos hv]
  refine ⟨cancelPending_length st, rfl, rfl, rfl, ?_⟩
  intro r
  unfold search_spotify
  rw [if_pos hv]

/-- C8 witness at the concrete whitespace input "   ". -/
theorem empty_query_no_search_witness :
    (stepInput "   " (initState (.ok none))).ui.results = [] ∧
    (stepInput "   " (initState (.ok none))).tasks.length =
      (initState (.ok none)).tasks.length :=
  ⟨(empty_query_no_search (initState (.ok none)) "   " (by decide)).2.2.1,
   (empty_query_no_search (initState (.ok none)) "   " (by decide)).1⟩

theorem search_spotify_err (q : String) (e : SpotifyException) :
    search_spotify q (.err e) = [] := by
  unfold search_spotify
  split
  · rfl
  · rfl

theorem search_spotify_ok_nil (q : String) : search_spotify q (.ok []) = [] := by
  unfold search_spotify
  split
  · rfl
  · rfl

/-- C10: the worker `search_spotify` is a total function: it returns
`[]` both for blank queries and whenever the remote call raises, so a
remote search failure yields exactly the same applied state as a valid
zero-match result, rendered as "No results" for a non-empty query. -/
theorem search_worker_total :
    (∀ (q : String) (r : RResult (List Track)), pyStrip q = "" →
      search_spotify q r = []) ∧
    (∀ (q : String) (e : SpotifyException),
      search_spotify q (.err e) = search_spotify q (.ok [])) ∧
    (∀ (q : String) (e : SpotifyException) (s : TUIState),
      delayed_search_apply q (.err e) s = delayed_search_apply q (.ok []) s) ∧
    (∀ (q : String) (e : SpotifyException) (s : TUIState), q ≠ "" →
      (delayed_search_apply q (.err e) s).results = [] ∧
      (delayed_search_apply q (.err e) s).results_display = "No results") := by
  refine ⟨?_, ?_, ?_, ?_⟩
  · intro q r hq
    unfold search_spotify
    rw [if_pos hq]
  · intro q e
    rw [search_spotify_err, search_spotify_ok_nil]
  · intro q e s
    unfold delayed_search_apply
    dsimp only
    rw [search_spotify_err, search_spotify_ok_nil]
  · intro q e s hq
    unfold delayed_search_apply
    dsimp only
    rw [search_spotify_err, if_pos rfl]
    exact ⟨rfl, if_neg hq⟩

/-- C10 witness: blank query with a successful remote, and a failing
remote with a non-empty query. -/
theorem search_worker_total_witness :
    search_spotify " " (.ok [trackA]) = [] ∧
    (delayed_search_apply "queen" (.err ⟨500, "520 timeout"⟩) idleUI).results_display =
      "No results" :=
  ⟨search_worker_total.1 " " (.ok [trackA]) (by decide),
   (search_worker_total.2.2.2 "queen" ⟨500, "520 timeout"⟩ idleUI (by decide)).2⟩

/-- C9: in every reachable state the app cannot crash with an
`IndexError`, and whenever the ResultSet is non-empty the selection is a
valid non-negative index, so `results[selected_index]` in the Enter
handler is in bounds. -/
theorem selection_index_in_bounds :
    ∀ (initResp : RResult (Option PlaybackInfo)) (es : List Event),
      (run initResp es).crashed = false ∧
      ((run initResp es).ui.results ≠ [] →
        0 ≤ (run initResp es).ui.selected_index ∧
        (run initResp es).ui.selected_index < (run initResp es).ui.results.length ∧
        (pyGet (run initResp es).ui.results
          (run initResp es).ui.selected_index).isSome = true) := by
  intro initResp es
  obtain ⟨hSel, _, _, _, hCr⟩ := run_inv initResp es
  refine ⟨hCr, ?_⟩
  intro hne
  obtain ⟨h0, hl⟩ := hSel hne
  obtain ⟨t, hpg⟩ := pyGet_eq_some _ _ h0 hl
  refine ⟨h0, hl, ?_⟩
  rw [hpg]
  rfl

/-- Concrete event trace: search for "queen", apply two results, then
navigate down once with the input focused. -/
def demoEvents : List Event :=
  [.inputChanged "queen", .taskComplete 0 (.ok [trackA, trackB]),
   .keyEvent "down" true po0 (.ok ())]

/-- C9 witness on the concrete trace `demoEvents`. -/
theorem selection_index_in_bounds_witness :
    (run (.ok none) demoEvents).crashed = false ∧
    (run (.ok none) demoEvents).ui.selected_index <
      (run (.ok none) demoEvents).ui.results.length :=
  ⟨(selection_index_in_bounds (.ok none) demoEvents).1,
   ((selection_index_in_bounds (.ok none) demoEvents).2 (by decide)).2.1⟩

/-- Concrete event trace leading to a stale selection: three results,
selection moved to row 2, then a new query whose search comes back
empty (failed remote), replacing the ResultSet by the empty list. -/
def staleEvents : List Event :=
  [.inputChanged "ab", .taskComplete 0 (.ok [trackA, trackB, trackC]),
   .keyEvent "down" true po0 (.ok ()), .keyEvent "down" true po0 (.ok ()),
   .inputChanged "abc", .taskComplete 1 (.err ⟨500, "boom"⟩)]

/-- C3 counterexample: after `staleEvents` the ResultSet has just been
replaced by the empty list, yet the SelectionIndex is still 2, not 0 —
the code resets the selection only when the new results are
non-empty. -/
theorem selection_not_reset_on_empty_cex :
    (run (.ok none) staleEvents).ui.results = [] ∧
    (run (.ok none) staleEvents).ui.selected_index = 2 := by
  exact ⟨by decide, by decide⟩

/-- C3 (amended): in every reachable state the SelectionIndex lies in
[0, len(ResultSet)-1] whenever the ResultSet is non-empty; the
SelectionIndex is reset to 0 exactly when the ResultSet is replaced by a
non-empty list, and replacement by an empty list leaves the
SelectionIndex unchanged. -/
theorem selection_bounds_and_reset :
    (∀ (initResp : RResult (Option PlaybackInfo)) (es : List Event),
      SelInv (run initResp es).ui) ∧
    (∀ (q : String) (r : RResult (List Track)) (s : TUIState),
      search_spotify q r ≠ [] → (delayed_search_apply q r s).selected_index = 0) ∧
    (∀ (q : String) (r : RResult (List Track)) (s : TUIState),
      search_spotify q r = [] →
        (delayed_search_apply q r s).selected_index = s.selected_index ∧
        (delayed_search_apply q r s).results = []) := by
  refine ⟨fun i es => (run_inv i es).1, ?_, ?_⟩
  · intro q r s h
    unfold delayed_search_apply
    dsimp only
    rw [if_neg h]
  · intro q r s h
    unfold delayed_search_apply
    dsimp only
    rw [if_pos h]
    exact ⟨rfl, h⟩

/-- C3 witness: both reset behaviours at concrete inputs. -/
theorem selection_bounds_and_reset_witness :
    SelInv (run (.ok none) demoEvents).ui ∧
    (delayed_search_apply "ab" (.ok [trackA]) idleUI).selected_index = 0 ∧
    (delayed_search_apply "ab" (.err ⟨500, "boom"⟩) uiTwo).selected_index =
      uiTwo.selected_index :=
  ⟨selection_bounds_and_reset.1 (.ok none) demoEvents,
   selection_bounds_and_reset.2.1 "ab" (.ok [trackA]) idleUI (by decide),
   (selection_bounds_and_reset.2.2 "ab" (.err ⟨500, "boom"⟩) uiTwo (by decide)).1⟩

/-- C1 counterexample: `uiTwo` has two results; with the search input
NOT focused the claim says navigation is active and Down must move the
selection from 0 to `min(0+1, 2-1) = 1`, but the unfocused branch of
`on_key` only handles space/n/p and leaves the state untouched. -/
theorem nav_inactive_without_focus_cex :
    uiTwo.results ≠ [] ∧
    on_key "down" false po0 (.ok ()) uiTwo = some (uiTwo, []) ∧
    min (uiTwo.selected_index + 1) ((uiTwo.results.length : Int) - 1) ≠
      uiTwo.selected_index := by
  exact ⟨by decide, by decide, by decide⟩

/-- C1 (amended): navigation over the result list is active exactly
when the ResultSet is non-empty and the search input HOLDS focus (the
spec has the focus condition inverted); when active, Down/Up move the
selection by plus/minus one clamped to [0, len-1], synchronously, with
no remote call issued. -/
theorem nav_active_iff_focused :
    (∀ (s : TUIState) (po : PlaybackOracle) (er : RResult Unit),
      s.results ≠ [] →
        on_key "down" true po er s =
          some (navRender s
            (min (s.selected_index + 1) ((s.results.length : Int) - 1)), []) ∧
        on_key "up" true po er s =
          some (navRender s (max (s.selected_index - 1) 0), [])) ∧
    (∀ (s : TUIState) (po : PlaybackOracle) (er : RResult Unit) (k : String),
      k = "down" ∨ k = "up" → on_key k false po er s = some (s, [])) ∧
    (∀ (s : TUIState) (po : PlaybackOracle) (er : RResult Unit) (k : String),
      s.results = [] → on_key k true po er s = some (s, [])) ∧
    (∀ (s : TUIState),
      s.results ≠ [] → 0 ≤ s.selected_index → s.selected_index < s.results.length →
        0 ≤ min (s.selected_index + 1) ((s.results.length : Int) - 1) ∧
        min (s.selected_index + 1) ((s.results.length : Int) - 1) < s.results.length ∧
        0 ≤ max (s.selected_index - 1) 0 ∧
        max (s.selected_index - 1) 0 < s.results.length) := by
  refine ⟨?_, ?_, ?_, ?_⟩
  · intro s po er hne
    constructor
    · unfold on_key
      rw [if_neg (by simp), if_neg hne, if_pos rfl]
    · unfold on_key
      rw [if_neg (by simp), if_neg hne, if_neg (by decide), if_pos rfl]
  · intro s po er k hk
    unfold on_key
    rw [if_pos rfl]
    rcases hk with h | h <;> subst h <;> rfl
  · intro s po er k hres
    unfold on_key
    rw [if_neg (by simp), if_pos hres]
  · intro s hne h0 hl
    have hlen : 0 < s.results.length := List.length_pos.mpr hne
    refine ⟨by omega, by omega, by omega, by omega⟩

/-- C1 witness: Down with focus moves the clamped selection; Down
without focus and any key on an empty ResultSet leave the state
unchanged. -/
theorem nav_active_iff_focused_witness :
    on_key "down" true po0 (.ok ()) uiTwo =
      some (navRender uiTwo
        (min (uiTwo.selected_index + 1) ((uiTwo.results.length : Int) - 1)), []) ∧
    on_key "up" false po0 (.ok ()) uiTwo = some (uiTwo, []) ∧
    on_key "down" true po0 (.ok ()) idleUI = some (idleUI, []) ∧
    0 ≤ min (uiTwo.selected_index + 1) ((uiTwo.results.length : Int) - 1) :=
  ⟨(nav_active_iff_focused.1 uiTwo po0 (.ok ()) (by decide)).1,
   nav_active_iff_focused.2.1 uiTwo po0 (.ok ()) "up" (Or.inr rfl),
   nav_active_iff_focused.2.2.1 idleUI po0 (.ok ()) "down" rfl,
   (nav_active_iff_focused.2.2.2 uiTwo (by decide) (by decide) (by decide)).1⟩

/-- The concrete no-active-device exception (HTTP 404). -/
def e404 : SpotifyException := ⟨404, "Device not found"⟩

/-- C5 counterexample: a no-active-device failure (HTTP 404) of the
Enter select-track command produces the bare generic "Playback Error"
message — not the dedicated no-device message, and without the
underlying reason — contradicting the claim for the selectTrack
command. -/
theorem select_track_no_device_generic_cex :
    (on_key "enter" true po0 (.err e404) uiTwo).map (fun p => p.1.status) =
      some "Playback Error" ∧
    "Playback Error" ≠ playbackErrStatus e404 := by
  exact ⟨by decide, by decide⟩

/-- C5 (amended): for the playPause/next/previous pipeline
(`handle_playback`), a remote SpotifyException with HTTP status 404 (no
active device) produces the dedicated message "Error: No active Spotify
device found", distinct from generic failures, and any other
SpotifyException produces "Playback Error: " followed by the underlying
reason; every such exception is caught at the handler boundary.  The
Enter select-track command, however, shows the bare message "Playback
Error" for every SpotifyException — including no-active-device — with
no reason attached. -/
theorem playback_error_message_mapping :
    (∀ e : SpotifyException, e.http_status = 404 →
      playbackErrStatus e = "Error: No active Spotify device found") ∧
    (∀ e : SpotifyException, e.http_status ≠ 404 →
      playbackErrStatus e = "Playback Error: " ++ e.msg) ∧
    (∀ (s : TUIState) (o : PlaybackOracle) (a : String) (e : SpotifyException),
      o.currentPlayback = .err e →
        (handle_playback a o s).1.status = playbackErrStatus e) ∧
    (∀ (s : TUIState) (o : PlaybackOracle) (pb : Option PlaybackInfo)
       (e : SpotifyException),
      o.currentPlayback = .ok pb → currentIsPlaying pb = true → o.pauseResp = .err e →
        (handle_playback "play_pause" o s).1.status = playbackErrStatus e) ∧
    (∀ (s : TUIState) (o : PlaybackOracle) (pb : Option PlaybackInfo)
       (e : SpotifyException),
      o.currentPlayback = .ok pb → currentIsPlaying pb = false → o.playResp = .err e →
        (handle_playback "play_pause" o s).1.status = playbackErrStatus e) ∧
    (∀ (s : TUIState) (o : PlaybackOracle) (pb : Option PlaybackInfo)
       (e : SpotifyException) (a : String),
      a = "next" ∨ a = "previous" → o.currentPlayback = .ok pb → o.skipResp = .err e →
        (handle_playback a o s).1.status = playbackErrStatus e) ∧
    (∀ (s : TUIState) (o : PlaybackOracle) (pb : Option PlaybackInfo)
       (e : SpotifyException) (a : String),
      a = "next" ∨ a = "previous" → o.currentPlayback = .ok pb → o.skipResp = .ok () →
      o.refetchPlayback = .err e →
        (handle_playback a o s).1.status = playbackErrStatus e) ∧
    (∀ (s : TUIState) (po : PlaybackOracle) (e : SpotifyException),
      s.results ≠ [] → 0 ≤ s.selected_index → s.selected_index < s.results.length →
        (on_key "enter" true po (.err e) s).map (fun p => p.1.status) =
          some "Playback Error") := by
  refine ⟨?_, ?_, ?_, ?_, ?_, ?_, ?_, ?_⟩
  · intro e h
    unfold playbackErrStatus
    rw [if_pos h]
  · intro e h
    unfold playbackErrStatus
    rw [if_neg h]
  · intro s o a e h
    unfold handle_playback
    rw [h]
  · intro s o pb e h1 h2 h3
    unfold handle_playback
    rw [h1]
    dsimp only
    rw [if_pos rfl, if_pos h2, h3]
  · intro s o pb e h1 h2 h3
    unfold handle_playback
    rw [h1]
    dsimp only
    rw [if_pos rfl, if_neg (by rw [h2]; exact Bool.noConfusion), h3]
  · intro s o pb e a ha h1 h2
    have hane : ¬(a = "play_pause") := by
      rcases ha with h | h <;> subst h <;> decide
    unfold handle_playback
    rw [h1]
    dsimp only
    rw [if_neg hane, if_pos ha, h2]
  · intro s o pb e a ha h1 h2 h3
    have hane : ¬(a = "play_pause") := by
      rcases ha with h | h <;> subst h <;> decide
    unfold handle_playback
    rw [h1]
    dsimp only
    rw [if_neg hane, if_pos ha, h2, h3]
  · intro s po e hne h0 hl
    obtain ⟨t, hpg⟩ := pyGet_eq_some s.results s.selected_index h0 hl
    unfold on_key
    rw [if_neg (by simp), if_neg hne, if_neg (by decide), if_neg (by decide),
      if_pos rfl, hpg]
    rfl

/-- C5 witness: the 404 mapping, a generic error on a failed pre-fetch,
and the bare Enter message, all at concrete inputs. -/
theorem playback_error_message_mapping_witness :
    playbackErrStatus e404 = "Error: No active Spotify device found" ∧
    (handle_playback "play_pause" ⟨.err ⟨500, "boom"⟩, .ok (), .ok (), .ok (), .ok none⟩
        idleUI).1.status = playbackErrStatus ⟨500, "boom"⟩ ∧
    (on_key "enter" true po0 (.err ⟨500, "boom"⟩) uiTwo).map (fun p => p.1.status) =
      some "Playback Error" :=
  ⟨playback_error_message_mapping.1 e404 rfl,
   playback_error_message_mapping.2.2.1 idleUI
     ⟨.err ⟨500, "boom"⟩, .ok (), .ok (), .ok (), .ok none⟩ "play_pause"
     ⟨500, "boom"⟩ rfl,
   playback_error_message_mapping.2.2.2.2.2.2.2 uiTwo po0 ⟨500, "boom"⟩
     (by decide) (by decide) (by decide)⟩

/-- Oracle for a concrete race: the skip succeeds but the follow-up
re-fetch raises. -/
def oRefetchFail : PlaybackOracle :=
  ⟨.ok (some ⟨false, some trackA⟩), .ok (), .ok (), .ok (), .err ⟨500, "timeout"⟩⟩

/-- C6 counterexample: a `next` command whose re-fetch remote call
fails does NOT leave PlaybackState unchanged: starting from
`is_playing = false`, the handler has already set `is_playing := true`
when the follow-up fetch raises, and the error message is shown. -/
theorem refetch_failure_flips_is_playing_cex :
    idleUI.is_playing = false ∧
    (handle_playback "next" oRefetchFail idleUI).1.is_playing = true ∧
    (handle_playback "next" oRefetchFail idleUI).1.status =
      playbackErrStatus ⟨500, "timeout"⟩ := by
  exact ⟨rfl, by decide, by decide⟩

/-- C6 (amended): a failed playback command leaves PlaybackState
unchanged except for the error message whenever the failing remote call
is the state pre-fetch or the playback command itself; however, when a
next/previous skip succeeds and only the follow-up state re-fetch
fails, `is_playing` has already been set to true before the error
message is shown.  No command is ever retried (each playback command is
issued at most once per invocation), and playPause invoked while the
remote reports no active device leaves `is_playing` unchanged and shows
the dedicated no-device message. -/
theorem failed_command_state_effects :
    (∀ (s : TUIState) (o : PlaybackOracle) (a : String) (e : SpotifyException),
      o.currentPlayback = .err e →
        (handle_playback a o s).1 = { s with status := playbackErrStatus e }) ∧
    (∀ (s : TUIState) (o : PlaybackOracle) (pb : Option PlaybackInfo)
       (e : SpotifyException),
      o.currentPlayback = .ok pb → currentIsPlaying pb = true → o.pauseResp = .err e →
        (handle_playback "play_pause" o s).1 = { s with status := playbackErrStatus e }) ∧
    (∀ (s : TUIState) (o : PlaybackOracle) (pb : Option PlaybackInfo)
       (e : SpotifyException),
      o.currentPlayback = .ok pb → currentIsPlaying pb = false → o.playResp = .err e →
        (handle_playback "play_pause" o s).1 = { s with status := playbackErrStatus e }) ∧
    (∀ (s : TUIState) (o : PlaybackOracle) (pb : Option PlaybackInfo)
       (e : SpotifyException) (a : String),
      a = "next" ∨ a = "previous" → o.currentPlayback = .ok pb → o.skipResp = .err e →
        (handle_playback a o s).1 = { s with status := playbackErrStatus e }) ∧
    (∀ (s : TUIState) (o : PlaybackOracle) (pb : Option PlaybackInfo)
       (e : SpotifyException) (a : String),
      a = "next" ∨ a = "previous" → o.currentPlayback = .ok pb → o.skipResp = .ok () →
      o.refetchPlayback = .err e →
        (handle_playback a o s).1 =
          { s with is_playing := true, status := playbackErrStatus e }) ∧
    (∀ (s : TUIState) (o : PlaybackOracle) (a : String),
      (handle_playback a o s).2.count RemoteCall.pauseCmd ≤ 1 ∧
      (handle_playback a o s).2.count RemoteCall.playCmd ≤ 1 ∧
      (handle_playback a o s).2.count RemoteCall.nextTrack ≤ 1 ∧
      (handle_playback a o s).2.count RemoteCall.prevTrack ≤ 1) ∧
    (∀ (s : TUIState) (o : PlaybackOracle) (m : String),
      o.currentPlayback = .ok none → o.playResp = .err ⟨404, m⟩ →
        (handle_playback "play_pause" o s).1.is_playing = s.is_playing ∧
        (handle_playback "play_pause" o s).1.status =
          "Error: No active Spotify device found") := by
  refine ⟨?_, ?_, ?_, ?_, ?_, ?_, ?_⟩
  · intro s o a e h
    unfold handle_playback
    rw [h]
  · intro s o pb e h1 h2 h3
    unfold handle_playback
    rw [h1]
    dsimp only
    rw [if_pos rfl, if_pos h2, h3]
  · intro s o pb e h1 h2 h3
    unfold handle_playback
    rw [h1]
    dsimp only
    rw [if_pos rfl, if_neg (by rw [h2]; exact Bool.noConfusion), h3]
  · intro s o pb e a ha h1 h2
    have hane : ¬(a = "play_pause") := by
      rcases ha with h | h <;> subst h <;> decide
    unfold handle_playback
    rw [h1]
    dsimp only
    rw [if_neg hane, if_pos ha, h2]
  · intro s o pb e a ha h1 h2 h3
    have hane : ¬(a = "play_pause") := by
      rcases ha with h | h <;> subst h <;> decide
    unfold handle_playback
    rw [h1]
    dsimp only
    rw [if_neg hane, if_pos ha, h2, h3]
  · intro s o a
    unfold handle_playback
    dsimp only
    repeat' split
    all_goals simp [List.count_cons, List.count_nil]
  · intro s o m h1 h2
    unfold handle_playback
    rw [h1]
    dsimp only
    rw [if_pos rfl]
    have hcf : currentIsPlaying none = false := rfl
    rw [if_neg (by rw [hcf]; exact Bool.noConfusion), h2]
    exact ⟨rfl, rfl⟩

/-- C6 witness: a failed pre-fetch leaves everything but the status
unchanged; playPause with no active device (404 on play) keeps
`is_playing` and shows the dedicated message; next issues its skip at
most once. -/
theorem failed_command_state_effects_witness :
    (handle_playback "play_pause" ⟨.err ⟨503, "down"⟩, .ok (), .ok (), .ok (), .ok none⟩
        idleUI).1 = { idleUI with status := playbackErrStatus ⟨503, "down"⟩ } ∧
    (handle_playback "play_pause" ⟨.ok none, .ok (), .err ⟨404, "nodev"⟩, .ok (), .ok none⟩
        idleUI).1.is_playing = idleUI.is_playing ∧
    (handle_playback "play_pause" ⟨.ok none, .ok (), .err ⟨404, "nodev"⟩, .ok (), .ok none⟩
        idleUI).1.status = "Error: No active Spotify device found" ∧
    (handle_playback "next" po0 idleUI).2.count RemoteCall.nextTrack ≤ 1 :=
  ⟨failed_command_state_effects.1 idleUI
     ⟨.err ⟨503, "down"⟩, .ok (), .ok (), .ok (), .ok none⟩ "play_pause" ⟨503, "down"⟩ rfl,
   (failed_command_state_effects.2.2.2.2.2.2 idleUI
     ⟨.ok none, .ok (), .err ⟨404, "nodev"⟩, .ok (), .ok none⟩ "nodev" rfl rfl).1,
   (failed_command_state_effects.2.2.2.2.2.2 idleUI
     ⟨.ok none, .ok (), .err ⟨404, "nodev"⟩, .ok (), .ok none⟩ "nodev" rfl rfl).2,
   (failed_command_state_effects.2.2.2.2.2.1 idleUI po0 "next").2.2.1⟩

/-- C2: at most one search task result is ever applied per task (the
application log ids are pairwise distinct); whenever a completing task
actually applies results, the query it writes is exactly the current
`self.query` at application time (so a stale query can never overwrite
a newer one); a cancelled task never mutates the ResultSet, the
rendered results, or the log; and every query change cancels the
previously pending (not-done) search task. -/
theorem search_application_no_stale :
    (∀ (initResp : RResult (Option PlaybackInfo)) (es : List Event),
      (run initResp es).appliedLog.Pairwise (fun a b => a.1 ≠ b.1)) ∧
    (∀ (initResp : RResult (Option PlaybackInfo)) (es : List Event)
       (id : Nat) (r : RResult (List Track)) (p : Nat × String),
      p ∈ (stepTaskComplete id r (run initResp es)).appliedLog →
      p ∉ (run initResp es).appliedLog →
        p.2 = (run initResp es).ui.query ∧ p.1 = id) ∧
    (∀ (st : SchedState) (id : Nat) (r : RResult (List Track)) (t : SearchTask),
      st.tasks[id]? = some t → t.cancelled = true →
        (stepTaskComplete id r st).ui = st.ui ∧
        (stepTaskComplete id r st).appliedLog = st.appliedLog) ∧
    (∀ (st : SchedState) (v : String) (id : Nat) (t : SearchTask),
      st.search_task = some id → st.tasks[id]? = some t → t.done = false →
        ∃ t2, (stepInput v st).tasks[id]? = some t2 ∧ t2.cancelled = true) := by
  refine ⟨?_, ?_, ?_, ?_⟩
  · intro initResp es
    exact (run_inv initResp es).2.2.2.1
  · intro initResp es id r p hin hnotin
    obtain ⟨_, hLive, _, _, _⟩ := run_inv initResp es
    unfold stepTaskComplete at hin
    split at hin
    · exact absurd hin hnotin
    next t hid =>
      split at hin
      next => exact absurd hin hnotin
      next hdone =>
        split at hin
        next => exact absurd hin hnotin
        next hcanc =>
          rw [List.mem_append] at hin
          cases hin with
          | inl h => exact absurd h hnotin
          | inr h =>
            rw [List.mem_singleton] at h
            subst h
            obtain ⟨_, hq, _⟩ := hLive id t hid (by simpa using hcanc)
              (by simpa using hdone)
            exact ⟨hq, rfl⟩
  · intro st id r t hid hcanc
    unfold stepTaskComplete
    rw [hid]
    dsimp only
    by_cases hdone : t.done = true
    · rw [if_pos hdone]
      exact ⟨rfl, rfl⟩
    · rw [if_neg hdone, if_pos hcanc]
      exact ⟨rfl, rfl⟩
  · intro st v id t hslot hid hdone
    have hlt : id < st.tasks.length := getElem?_some_lt hid
    have hcp : cancelPending st = st.tasks.set id { t with cancelled := true } := by
      unfold cancelPending
      rw [hslot]
      dsimp only
      rw [hid]
      dsimp only
      rw [if_neg (by rw [hdone]; exact Bool.noConfusion)]
    unfold stepInput
    dsimp only
    split
    · refine ⟨{ t with cancelled := true }, ?_, rfl⟩
      rw [hcp, List.getElem?_set_eq_of_lt _ hlt]
    · refine ⟨{ t with cancelled := true }, ?_, rfl⟩
      rw [hcp, List.getElem?_append_left (by simpa using hlt),
        List.getElem?_set_eq_of_lt _ hlt]

/-- C2 witness: on the concrete trace where "ab" was typed, completing
task 0 applies exactly the current query "ab"; typing again cancels the
pending task 0. -/
theorem search_application_no_stale_witness :
    ((0, "ab") : Nat × String).2 = (run (.ok none) [Event.inputChanged "ab"]).ui.query ∧
    (∃ t2, (stepInput "xy" (run (.ok none) [Event.inputChanged "ab"])).tasks[0]? =
      some t2 ∧ t2.cancelled = true) :=
  ⟨(search_application_no_stale.2.1 (.ok none) [Event.inputChanged "ab"] 0
      (.ok [trackA]) (0, "ab") (by decide) (by decide)).1,
   search_application_no_stale.2.2.2 (run (.ok none) [Event.inputChanged "ab"]) "xy" 0
     ⟨"ab", false, false⟩ (by decide) (by decide) rfl⟩

/-- C4 counterexample: it is not the case that every remote spotipy
call site executes off the event loop — the playback command sites in
`handle_playback` (and the startup fetch and the Enter play call) run
directly on the loop thread. -/
theorem remote_call_on_loop_cex :
    ¬ ∀ c ∈ remoteCallSites, c.context = ExecContext.workerThread := by
  decide

/-- C4 (amended): only the remote search (`search_spotify`, invoked
solely through `loop.run_in_executor`) and the background track-name
re-fetch in `update_track_name` execute off the cooperative loop on the
single worker thread, with their results applied back on the loop; the
startup fetch, every remote call of the playback pipeline
`handle_playback`, and the Enter select-track play call execute
directly on the event loop thread (playback commands are dispatched as
separate asyncio tasks, so the key handler does not await them, but
their remote calls still block the loop). -/
theorem remote_call_contexts :
    (∀ c ∈ remoteCallSites,
      (c.context = ExecContext.workerThread ↔
        (c.caller = "search_spotify" ∨ c.caller = "update_track_name"))) ∧
    (∀ c ∈ remoteCallSites, c.caller = "handle_playback" →
      c.context = ExecContext.eventLoop) ∧
    (∀ c ∈ remoteCallSites, c.caller = "on_mount" ∨ c.caller = "on_key" →
      c.context = ExecContext.eventLoop) := by
  refine ⟨by decide, by decide, by decide⟩

/-- C4 witness: the search call site is the worker-thread one, and the
pause command site runs on the loop. -/
theorem remote_call_contexts_witness :
    (RemoteCallSite.mk 130 "search_spotify" "search" ExecContext.workerThread).context =
      ExecContext.workerThread ∧
    (RemoteCallSite.mk 181 "handle_playback" "pause_playback"
      ExecContext.eventLoop).context = ExecContext.eventLoop :=
  ⟨(remote_call_contexts.1 ⟨130, "search_spotify", "search", ExecContext.workerThread⟩
      (by decide)).mpr (Or.inl rfl),
   remote_call_contexts.2.1 ⟨181, "handle_playback", "pause_playback",
      ExecContext.eventLoop⟩ (by decide) rfl⟩

/-- C7 witness: the pause path with the remote playing, the play path
with the remote idle (pre-fetched track name used), and the
at-most-one-toggle-command bound, at concrete oracles. -/
theorem play_pause_toggle_once_witness :
    (handle_playback "play_pause"
      ⟨.ok (some ⟨true, some trackA⟩), .ok (), .ok (), .ok (), .ok none⟩
      idleUI).1.is_playing = false ∧
    (handle_playback "play_pause"
      ⟨.ok (some ⟨false, some trackA⟩), .ok (), .ok (), .ok (), .ok none⟩
      idleUI).1.status = "Playing: " ++ trackA.name ∧
    (handle_playback "play_pause" po0 idleUI).2.count RemoteCall.pauseCmd +
      (handle_playback "play_pause" po0 idleUI).2.count RemoteCall.playCmd ≤ 1 :=
  ⟨(play_pause_toggle_once.1 idleUI
      ⟨.ok (some ⟨true, some trackA⟩), .ok (), .ok (), .ok (), .ok none⟩
      (some ⟨true, some trackA⟩) rfl rfl rfl).2,
   ((play_pause_toggle_once.2.1 idleUI
      ⟨.ok (some ⟨false, some trackA⟩), .ok (), .ok (), .ok (), .ok none⟩
      (some ⟨false, some trackA⟩) rfl rfl rfl).2.2 trackA rfl),
   play_pause_toggle_once.2.2 idleUI po0⟩
